import Mathlib

/-!
Verification of the content-store service of the personal-blog backend:
the `create-post` and `get-posts` request handlers
(`src/lambda/create-post.ts`, `src/lambda/get-posts.ts`), together with a
model of the DynamoDB store boundary they call (conditional `PutCommand`
and the `StatusIndex` query declared in `src/lib/database-stack.ts`).

Strings are modelled as `List Char`.  JavaScript dynamic values (the
fields of a parsed JSON request body) are modelled by `JSValue`;
JSON-serializable response bodies by `JVal`, where `JSON.stringify`
dropping `undefined` object fields is reflected by omitting the field.
-/

namespace Blog

/-- Whitespace recognized by `String.prototype.trim`, restricted to the
whitespace characters relevant to this development. -/
def isWs (c : Char) : Bool :=
  c == ' ' || c == '\t' || c == '\n' || c == '\r'

/-- `s.trim()`: drop whitespace from both ends. -/
def trim (s : List Char) : List Char :=
  ((s.dropWhile isWs).reverse.dropWhile isWs).reverse

/-- `s.replace(/[<>]/g, '')`: remove every occurrence of `<` and `>`. -/
def removeAngles (s : List Char) : List Char :=
  s.filter (fun c => !(c == '<' || c == '>'))

/-- `sanitizeInput` from `create-post.ts`: trim, then strip angle brackets. -/
def sanitizeInput (s : List Char) : List Char :=
  removeAngles (trim s)

/-- A JavaScript value as it can appear in a field of a parsed JSON body. -/
inductive JSValue where
  | undef
  | null
  | bool (b : Bool)
  | num (n : Int)
  | str (s : List Char)
deriving DecidableEq

/-- JavaScript truthiness of a `JSValue`. -/
def truthy : JSValue → Bool
  | .undef => false
  | .null => false
  | .bool b => b
  | .num n => n != 0
  | .str s => !s.isEmpty

/-- `typeof v === 'string'`. -/
def isStr : JSValue → Bool
  | .str _ => true
  | _ => false

/-- The character list of a string value (only consulted when `isStr` holds,
mirroring the short-circuit evaluation in the source). -/
def strOf : JSValue → List Char
  | .str s => s
  | _ => []

/-- A parsed request body: the fields `create-post.ts` reads, plus a `tags`
field a candidate may carry (the handler never reads it). -/
structure Body where
  title : JSValue
  content : JSValue
  status : JSValue
  tags : Option (List (List Char))
deriving DecidableEq

def titleRequiredMsg : List Char :=
  "Title is required and must be a non-empty string".toList

def titleTooLongMsg : List Char :=
  "Title must be less than 200 characters".toList

def contentRequiredMsg : List Char :=
  "Content is required and must be a non-empty string".toList

def contentTooLongMsg : List Char :=
  "Content must be less than 10,000 characters".toList

def invalidStatusMsg : List Char :=
  "Status must be either \"draft\" or \"published\"".toList

/-- The errors pushed for `body.title` by `validatePostData`. -/
def titleErrors (v : JSValue) : List (List Char) :=
  if !truthy v || !isStr v || (trim (strOf v)).length == 0 then [titleRequiredMsg]
  else if (trim (strOf v)).length > 200 then [titleTooLongMsg]
  else []

/-- The errors pushed for `body.content` by `validatePostData`. -/
def contentErrors (v : JSValue) : List (List Char) :=
  if !truthy v || !isStr v || (trim (strOf v)).length == 0 then [contentRequiredMsg]
  else if (trim (strOf v)).length > 10000 then [contentTooLongMsg]
  else []

/-- `['draft', 'published'].includes(v)` (SameValueZero: a non-string never
equals a string literal). -/
def statusIncludes : JSValue → Bool
  | .str s => s == "draft".toList || s == "published".toList
  | _ => false

/-- The errors pushed for `body.status` by `validatePostData`. -/
def statusErrors (v : JSValue) : List (List Char) :=
  if truthy v && !statusIncludes v then [invalidStatusMsg] else []

/-- Result shape of `validatePostData`. -/
structure Validation where
  isValid : Bool
  errors : List (List Char)
deriving DecidableEq

/-- `validatePostData` from `create-post.ts`: all three rule groups are
evaluated, in declaration order, and validity is emptiness of the error
list. -/
def validatePostData (b : Body) : Validation :=
  let errs := titleErrors b.title ++ contentErrors b.content ++ statusErrors b.status
  { isValid := errs.length == 0, errors := errs }

/-- A stored post record, with the exact fields the handler writes
(there is no `tags` field in the source's `post` object). -/
structure Post where
  postId : List Char
  createdAt : List Char
  title : List Char
  content : List Char
  status : JSValue
  updatedAt : List Char
deriving DecidableEq

/-- The `post` object built by the handler after validation:
`title`/`content` sanitized, `status` defaulted via `body.status || 'draft'`,
`updatedAt` set to the same instant as `createdAt`. -/
def mkPost (freshId now : List Char) (b : Body) : Post :=
  { postId := freshId
    createdAt := now
    title := sanitizeInput (strOf b.title)
    content := sanitizeInput (strOf b.content)
    status := if truthy b.status then b.status else .str "draft".toList
    updatedAt := now }

/-- A JSON value, as produced by `JSON.stringify`; an `undefined` object
field is dropped by `stringify`, so it simply does not occur in `obj`. -/
inductive JVal where
  | str (s : List Char)
  | num (n : Int)
  | bool (b : Bool)
  | null
  | arr (xs : List JVal)
  | obj (fields : List (List Char × JVal))

/-- Whether a JSON object carries a field with the given key. -/
def JVal.hasKey : JVal → List Char → Bool
  | .obj fs, k => fs.any (fun f => f.1 == k)
  | _, _ => false

/-- JSON serialization of a `JSValue` (as `JSON.stringify` renders it when
it occurs as a defined object field). -/
def jsToJson : JSValue → JVal
  | .undef => .null
  | .null => .null
  | .bool b => .bool b
  | .num n => .num n
  | .str s => .str s

def errorKey : List Char := "error".toList
def detailsKey : List Char := "details".toList
def messageKey : List Char := "message".toList

/-- Body of the 400 response for unparseable JSON. -/
def invalidJsonBody : JVal :=
  .obj [(errorKey, .str "Invalid JSON in request body".toList)]

/-- Body of the 400 response for a failed validation: the error tag plus the
full list of validation error messages. -/
def validationFailedBody (errs : List (List Char)) : JVal :=
  .obj [(errorKey, .str "Validation failed".toList),
        (detailsKey, .arr (errs.map JVal.str))]

/-- Body of the 409 response for a conditional-check failure. -/
def conflictBody : JVal :=
  .obj [(errorKey, .str "Post with this ID already exists".toList)]

/-- Body of the 500 response of `create-post`: `message` is present exactly
when `NODE_ENV === 'development'` (otherwise it is `undefined` and
`JSON.stringify` drops it). -/
def createFailedBody (dev : Bool) (msg : List Char) : JVal :=
  .obj ((errorKey, JVal.str "Failed to create post".toList) ::
    (if dev then [(messageKey, JVal.str msg)] else []))

/-- Body of the 500 response of `get-posts`, same `message` rule. -/
def fetchFailedBody (dev : Bool) (msg : List Char) : JVal :=
  .obj ((errorKey, JVal.str "Failed to fetch posts".toList) ::
    (if dev then [(messageKey, JVal.str msg)] else []))

/-- `JSON.stringify(post)`: the six fields of the `post` object, in literal
order. -/
def postJson (p : Post) : JVal :=
  .obj [("postId".toList, .str p.postId),
        ("createdAt".toList, .str p.createdAt),
        ("title".toList, .str p.title),
        ("content".toList, .str p.content),
        ("status".toList, jsToJson p.status),
        ("updatedAt".toList, .str p.updatedAt)]

/-- The runtime environment: the `NODE_ENV` variable. -/
structure Env where
  nodeEnv : List Char

/-- `process.env.NODE_ENV === 'development'`. -/
def devMode (e : Env) : Bool := e.nodeEnv == "development".toList

/-- The DynamoDB posts table together with a fault switch: `fault = some msg`
models the store being unreachable (every call raises an error carrying
`msg`). -/
structure Store where
  items : List Post
  fault : Option (List Char)

/-- Outcome of `docClient.send(new PutCommand(...))` as the handler's
`catch` block distinguishes it. -/
inductive PutOutcome where
  | ok
  | conditionalCheckFailed
  | otherError (msg : List Char)

/-- Whether a record with the given `postId` exists in the table. -/
def hasPostId (items : List Post) (pid : List Char) : Bool :=
  items.any (fun q => q.postId == pid)

/-- Modelled from the spec: the store boundary `putIfAbsent` (spec section 6) —
the DynamoDB conditional `PutCommand` with
`ConditionExpression: attribute_not_exists(postId)` issued by the handler;
the store itself is an external collaborator, not code under `src/lambda`.
It fails distinctly when the key already exists
(`ConditionalCheckFailedException`, table unchanged) versus when the store
is unreachable (any other error, table unchanged); on success the record is
inserted. -/
def dynamoPut (st : Store) (p : Post) : PutOutcome × Store :=
  match st.fault with
  | some msg => (.otherError msg, st)
  | none =>
    if hasPostId st.items p.postId then (.conditionalCheckFailed, st)
    else (.ok, { items := p :: st.items, fault := none })

/-- The raw `event.body` as the handler's parse step distinguishes it:
absent (`null`), the empty string, non-empty but unparseable text, or text
parsing to a JSON object `b`. -/
inductive RawBody where
  | noBody
  | emptyStr
  | malformed
  | wellFormed (b : Body)

/-- The empty JSON object `{}`: every field absent. -/
def emptyBody : Body :=
  { title := .undef, content := .undef, status := .undef, tags := none }

/-- `JSON.parse(event.body || '{}')`: a `null` or empty-string body is falsy,
so the literal `'{}'` is parsed instead and yields the empty object;
unparseable text throws (`none`). -/
def parseBody : RawBody → Option Body
  | .noBody => some emptyBody
  | .emptyStr => some emptyBody
  | .malformed => none
  | .wellFormed b => some b

/-- An API response: status code and JSON body (headers are constant in the
source and carry no claim-relevant content). -/
structure Response where
  statusCode : Nat
  body : JVal

/-- The `create-post` handler: parse, validate, build the post from a fresh
id and timestamp, conditional put, and map each outcome to a response.
Returns the response together with the resulting store state. -/
def createPost (env : Env) (freshId now : List Char) (raw : RawBody)
    (st : Store) : Response × Store :=
  match parseBody raw with
  | none => ({ statusCode := 400, body := invalidJsonBody }, st)
  | some b =>
    let v := validatePostData b
    if !v.isValid then
      ({ statusCode := 400, body := validationFailedBody v.errors }, st)
    else
      let post := mkPost freshId now b
      match dynamoPut st post with
      | (.ok, st2) => ({ statusCode := 201, body := postJson post }, st2)
      | (.conditionalCheckFailed, st2) =>
          ({ statusCode := 409, body := conflictBody }, st2)
      | (.otherError msg, st2) =>
          ({ statusCode := 500, body := createFailedBody (devMode env) msg }, st2)

def publishedStr : JSValue := .str "published".toList

/-- Comparison used by the `StatusIndex` read: `ScanIndexForward: false`
orders by the sort key `createdAt` descending. -/
def leByCreatedAtDesc (p q : Post) : Bool := decide (q.createdAt ≤ p.createdAt)

/-- Modelled from the spec: the store boundary `queryByIndex` (spec section 6) —
the DynamoDB `QueryCommand` on the `StatusIndex` global secondary index
(partition key `status`, sort key `createdAt`, declared in
`src/lib/database-stack.ts`) with key condition `status = 'published'`,
`ScanIndexForward: false` and `Limit: 50`: the records whose `status` equals
`'published'`, ordered by `createdAt` descending, first 50. -/
def publishedQuery (items : List Post) : List Post :=
  ((items.filter (fun p => p.status == publishedStr)).mergeSort
    leByCreatedAtDesc).take 50

/-- The `get-posts` handler: query the index and return the items as a JSON
array, or a 500 response when the store call fails. -/
def getPosts (env : Env) (st : Store) : Response :=
  match st.fault with
  | some msg => { statusCode := 500, body := fetchFailedBody (devMode env) msg }
  | none =>
      { statusCode := 200
        body := .arr ((publishedQuery st.items).map postJson) }

/-- A title that is empty or missing: absent (`undefined`), `null`, or a
string that is empty after trimming. -/
def titleEmptyOrMissing : JSValue → Bool
  | .undef => true
  | .null => true
  | .str s => trim s == []
  | _ => false

/-- A concrete candidate carrying a `tags` field, used to exercise the
response shape of a successful create. -/
def taggedCandidate : Body :=
  { title := .str "t".toList, content := .str "c".toList,
    status := .str "published".toList, tags := some ["x".toList] }

/-- A concrete store holding one published and one draft post. -/
def demoStore : Store :=
  { items := [
      { postId := "p1".toList, createdAt := "2024-01-01T00:00:00.000Z".toList,
        title := "a".toList, content := "b".toList,
        status := .str "published".toList,
        updatedAt := "2024-01-01T00:00:00.000Z".toList },
      { postId := "p2".toList, createdAt := "2024-01-02T00:00:00.000Z".toList,
        title := "c".toList, content := "d".toList,
        status := .str "draft".toList,
        updatedAt := "2024-01-02T00:00:00.000Z".toList }],
    fault := none }

/-- A concrete store whose next call fails (store unreachable). -/
def faultyStore : Store :=
  { items := [], fault := some "connection refused".toList }

/-! ### Helper lemmas shared between the claim theorems -/

theorem mem_of_mem_trim {a : Char} {s : List Char} (h : a ∈ trim s) : a ∈ s := by
  unfold trim at h
  rw [List.mem_reverse] at h
  have h2 := (List.dropWhile_sublist _).subset h
  rw [List.mem_reverse] at h2
  exact (List.dropWhile_sublist _).subset h2

theorem not_lt_mem_removeAngles {s : List Char} : '<' ∉ removeAngles s := by
  intro h
  simp [removeAngles] at h

theorem not_gt_mem_removeAngles {s : List Char} : '>' ∉ removeAngles s := by
  intro h
  simp [removeAngles] at h

theorem removeAngles_sanitize (s : List Char) :
    removeAngles (sanitizeInput s) = sanitizeInput s := by
  apply List.filter_eq_self.mpr
  intro a ha
  simp only [sanitizeInput, removeAngles, List.mem_filter] at ha
  exact ha.2

theorem sanitize_sanitize (s : List Char) :
    sanitizeInput (sanitizeInput s) = trim (sanitizeInput s) := by
  show removeAngles (trim (sanitizeInput s)) = trim (sanitizeInput s)
  apply List.filter_eq_self.mpr
  intro a ha
  have h1 : a ∈ sanitizeInput s := mem_of_mem_trim ha
  simp only [sanitizeInput, removeAngles, List.mem_filter] at h1
  exact h1.2

theorem mem_validate_errors {msg : List Char} {b : Body} :
    msg ∈ (validatePostData b).errors ↔
      msg ∈ titleErrors b.title ∨ msg ∈ contentErrors b.content ∨
        msg ∈ statusErrors b.status := by
  simp [validatePostData, List.mem_append, or_assoc]

theorem invalidStatusMsg_not_mem_titleErrors {v : JSValue} :
    invalidStatusMsg ∉ titleErrors v := by
  unfold titleErrors
  split
  · simp
    decide
  split
  · simp
    decide
  · simp

theorem invalidStatusMsg_not_mem_contentErrors {v : JSValue} :
    invalidStatusMsg ∉ contentErrors v := by
  unfold contentErrors
  split
  · simp
    decide
  split
  · simp
    decide
  · simp

theorem mem_statusErrors {v : JSValue} :
    invalidStatusMsg ∈ statusErrors v ↔
      (truthy v = true ∧ statusIncludes v = false) := by
  unfold statusErrors
  split
  · rename_i h
    simp at h ⊢
    exact h
  · rename_i h
    simp at h ⊢
    intro ht
    exact h ht

theorem createPost_parse_fail (env : Env) (pid now : List Char) (raw : RawBody)
    (st : Store) (hp : parseBody raw = none) :
    createPost env pid now raw st =
      ({ statusCode := 400, body := invalidJsonBody }, st) := by
  unfold createPost
  rw [hp]

theorem createPost_invalid_eq (env : Env) (pid now : List Char) (raw : RawBody)
    (st : Store) (b : Body) (hp : parseBody raw = some b)
    (hv : (validatePostData b).isValid = false) :
    createPost env pid now raw st =
      ({ statusCode := 400,
         body := validationFailedBody (validatePostData b).errors }, st) := by
  unfold createPost
  rw [hp]
  simp [hv]

theorem createPost_success_eq (env : Env) (pid now : List Char) (raw : RawBody)
    (st : Store) (b : Body) (hp : parseBody raw = some b)
    (hv : (validatePostData b).isValid = true) (hf : st.fault = none)
    (hc : hasPostId st.items pid = false) :
    createPost env pid now raw st =
      ({ statusCode := 201, body := postJson (mkPost pid now b) },
       { items := mkPost pid now b :: st.items, fault := none }) := by
  unfold createPost
  rw [hp]
  simp only [hv, Bool.not_true, Bool.false_eq_true, if_false]
  unfold dynamoPut
  rw [hf]
  simp [mkPost, hc]

theorem createPost_conflict_eq (env : Env) (pid now : List Char) (raw : RawBody)
    (st : Store) (b : Body) (hp : parseBody raw = some b)
    (hv : (validatePostData b).isValid = true) (hf : st.fault = none)
    (hc : hasPostId st.items pid = true) :
    createPost env pid now raw st =
      ({ statusCode := 409, body := conflictBody }, st) := by
  unfold createPost
  rw [hp]
  simp only [hv, Bool.not_true, Bool.false_eq_true, if_false]
  unfold dynamoPut
  rw [hf]
  simp [mkPost, hc]

theorem createPost_store_fault_eq (env : Env) (pid now : List Char) (raw : RawBody)
    (st : Store) (b : Body) (msg : List Char) (hp : parseBody raw = some b)
    (hv : (validatePostData b).isValid = true) (hf : st.fault = some msg) :
    createPost env pid now raw st =
      ({ statusCode := 500, body := createFailedBody (devMode env) msg }, st) := by
  unfold createPost
  rw [hp]
  simp only [hv, Bool.not_true, Bool.false_eq_true, if_false]
  unfold dynamoPut
  rw [hf]

theorem leByCreatedAtDesc_trans (a b c : Post) (hab : leByCreatedAtDesc a b)
    (hbc : leByCreatedAtDesc b c) : leByCreatedAtDesc a c := by
  simp only [leByCreatedAtDesc, decide_eq_true_eq] at *
  exact le_trans hbc hab

theorem leByCreatedAtDesc_total (a b : Post) :
    leByCreatedAtDesc a b || leByCreatedAtDesc b a := by
  simp only [leByCreatedAtDesc, Bool.or_eq_true, decide_eq_true_eq]
  exact le_total b.createdAt a.createdAt

theorem publishedQuery_sorted (items : List Post) :
    (publishedQuery items).Pairwise (fun p q => q.createdAt ≤ p.createdAt) := by
  apply List.Pairwise.take
  apply List.Pairwise.imp ?_
    (List.sorted_mergeSort leByCreatedAtDesc_trans leByCreatedAtDesc_total
      (items.filter (fun p => p.status == publishedStr)))
  intro a b h
  simpa [leByCreatedAtDesc] using h

theorem publishedQuery_status {items : List Post} {p : Post}
    (h : p ∈ publishedQuery items) : p.status = publishedStr := by
  unfold publishedQuery at h
  have h1 := List.mem_of_mem_take h
  rw [List.mem_mergeSort] at h1
  have h2 := List.of_mem_filter h1
  simpa using h2

theorem publishedQuery_length (items : List Post) :
    (publishedQuery items).length ≤ 50 :=
  List.length_take_le _ _

theorem publishedQuery_nil {items : List Post}
    (h : items.filter (fun p => p.status == publishedStr) = []) :
    publishedQuery items = [] := by
  simp [publishedQuery, h]

theorem getPosts_ok (env : Env) (st : Store) (hf : st.fault = none) :
    getPosts env st =
      { statusCode := 200
        body := .arr ((publishedQuery st.items).map postJson) } := by
  unfold getPosts
  rw [hf]

/-! ### Claim theorems -/

/-- C1: for every candidate post that fails validation, the create handler
returns a 400 response whose body carries the full list of validation error
messages in `details`, and the store state is unchanged — no write is
attempted. -/
theorem create_validation_failure_no_write (env : Env) (pid now : List Char)
    (raw : RawBody) (st : Store) (b : Body) (hp : parseBody raw = some b)
    (hv : (validatePostData b).isValid = false) :
    (createPost env pid now raw st).1.statusCode = 400 ∧
    (createPost env pid now raw st).1.body =
      validationFailedBody (validatePostData b).errors ∧
    (createPost env pid now raw st).2 = st := by
  rw [createPost_invalid_eq env pid now raw st b hp hv]
  exact ⟨rfl, rfl, rfl⟩

/-- Witness for C1 at a concrete invalid candidate (the empty object). -/
theorem create_validation_failure_no_write_witness :
    parseBody (.wellFormed emptyBody) = some emptyBody ∧
    (validatePostData emptyBody).isValid = false ∧
    ((createPost ⟨"test".toList⟩ "id-1".toList "now".toList
        (.wellFormed emptyBody) { items := [], fault := none }).1.statusCode = 400 ∧
     (createPost ⟨"test".toList⟩ "id-1".toList "now".toList
        (.wellFormed emptyBody) { items := [], fault := none }).1.body =
       validationFailedBody (validatePostData emptyBody).errors ∧
     (createPost ⟨"test".toList⟩ "id-1".toList "now".toList
        (.wellFormed emptyBody) { items := [], fault := none }).2 =
       { items := [], fault := none }) :=
  ⟨rfl, by decide,
    create_validation_failure_no_write ⟨"test".toList⟩ "id-1".toList "now".toList
      (.wellFormed emptyBody) { items := [], fault := none } emptyBody rfl (by decide)⟩

/-- C5 counterexample: sanitize is not idempotent — on the input
`"< a >"` the first pass yields `" a "` (stripping the angle brackets
exposes boundary whitespace) and the second pass trims it to `"a"`. -/
theorem sanitize_not_idempotent_cx :
    sanitizeInput (sanitizeInput "< a >".toList) ≠ sanitizeInput "< a >".toList := by
  decide

/-- C5 (amended): for every string `s`, `sanitizeInput s` contains no `<`
and no `>` character; a second sanitization pass equals trimming the first
pass's output (so sanitize is idempotent exactly on inputs whose sanitized
form is already trimmed, and full idempotence fails when stripping the
angle brackets exposes boundary whitespace). -/
theorem sanitize_clean_and_second_pass_trims (s : List Char) :
    '<' ∉ sanitizeInput s ∧ '>' ∉ sanitizeInput s ∧
    removeAngles (sanitizeInput s) = sanitizeInput s ∧
    sanitizeInput (sanitizeInput s) = trim (sanitizeInput s) :=
  ⟨not_lt_mem_removeAngles, not_gt_mem_removeAngles,
    removeAngles_sanitize s, sanitize_sanitize s⟩

/-- C7: for every candidate whose title is empty or missing, validation
fails with an error list containing the title-required message (the
message the source pushes for the spec's "title required" rule), and the
create handler returns 400 with the store state unchanged. -/
theorem empty_title_fails_validation (env : Env) (pid now : List Char)
    (st : Store) (b : Body) (hb : titleEmptyOrMissing b.title = true) :
    titleRequiredMsg ∈ (validatePostData b).errors ∧
    (validatePostData b).isValid = false ∧
    createPost env pid now (.wellFormed b) st =
      ({ statusCode := 400,
         body := validationFailedBody (validatePostData b).errors }, st) := by
  have ht : titleErrors b.title = [titleRequiredMsg] := by
    rcases hbt : b.title with _ | _ | b' | n | s <;>
      rw [hbt] at hb <;> simp [titleEmptyOrMissing] at hb
    · decide
    · decide
    · simp [titleErrors, strOf, hb]
  have hmem : titleRequiredMsg ∈ (validatePostData b).errors := by
    rw [mem_validate_errors, ht]
    exact Or.inl (List.mem_singleton.mpr rfl)
  have hv : (validatePostData b).isValid = false := by
    simp [validatePostData, ht]
  exact ⟨hmem, hv, createPost_invalid_eq env pid now (.wellFormed b) st b rfl hv⟩

/-- Witness for C7 at a concrete candidate whose title is absent. -/
theorem empty_title_fails_validation_witness :
    titleEmptyOrMissing emptyBody.title = true ∧
    (titleRequiredMsg ∈ (validatePostData emptyBody).errors ∧
     (validatePostData emptyBody).isValid = false ∧
     createPost ⟨"test".toList⟩ "id-1".toList "now".toList
         (.wellFormed emptyBody) { items := [], fault := none } =
       ({ statusCode := 400,
          body := validationFailedBody (validatePostData emptyBody).errors },
        { items := [], fault := none })) :=
  ⟨rfl, empty_title_fails_validation ⟨"test".toList⟩ "id-1".toList "now".toList
    { items := [], fault := none } emptyBody rfl⟩

/-- C9: an invocation with an absent (`null`) or empty-string body is
treated as the empty object: the create handler returns the 400
validation-failure result listing exactly the title-required and
content-required messages — which is not the invalid-JSON parse-error
result — and the store state is unchanged. -/
theorem absent_body_yields_validation_errors (env : Env) (pid now : List Char)
    (st : Store) :
    createPost env pid now .noBody st =
      ({ statusCode := 400,
         body := validationFailedBody [titleRequiredMsg, contentRequiredMsg] }, st) ∧
    createPost env pid now .emptyStr st =
      ({ statusCode := 400,
         body := validationFailedBody [titleRequiredMsg, contentRequiredMsg] }, st) ∧
    validationFailedBody [titleRequiredMsg, contentRequiredMsg] ≠ invalidJsonBody := by
  have hv : (validatePostData emptyBody).isValid = false := by decide
  have he : (validatePostData emptyBody).errors
      = [titleRequiredMsg, contentRequiredMsg] := by decide
  refine ⟨?_, ?_, ?_⟩
  · rw [createPost_invalid_eq env pid now .noBody st emptyBody rfl hv, he]
  · rw [createPost_invalid_eq env pid now .emptyStr st emptyBody rfl hv, he]
  · intro h
    simp [validationFailedBody, invalidJsonBody] at h

/-- C10: for every candidate with a falsy `status` value (empty string, 0,
`false`, `null`, or absent), the invalid-status message does not appear in
the validation errors and the created post's status is `'draft'`; moreover,
for any status value whatsoever, the invalid-status message appears exactly
when the value is truthy and not one of `'draft'`/`'published'`. -/
theorem falsy_status_defaults_to_draft (b : Body) (pid now : List Char)
    (hs : truthy b.status = false) :
    invalidStatusMsg ∉ (validatePostData b).errors ∧
    (mkPost pid now b).status = JSValue.str "draft".toList ∧
    (∀ v : JSValue,
      (invalidStatusMsg ∈ (validatePostData { b with status := v }).errors ↔
        (truthy v = true ∧ statusIncludes v = false))) := by
  refine ⟨?_, ?_, ?_⟩
  · rw [mem_validate_errors]
    rintro (h | h | h)
    · exact invalidStatusMsg_not_mem_titleErrors h
    · exact invalidStatusMsg_not_mem_contentErrors h
    · rw [mem_statusErrors] at h
      rw [hs] at h
      exact absurd h.1 (by simp)
  · simp [mkPost, hs]
  · intro v
    rw [mem_validate_errors]
    constructor
    · rintro (h | h | h)
      · exact absurd h invalidStatusMsg_not_mem_titleErrors
      · exact absurd h invalidStatusMsg_not_mem_contentErrors
      · exact mem_statusErrors.mp h
    · intro h
      exact Or.inr (Or.inr (mem_statusErrors.mpr h))

/-- Witness for C10 at the falsy status value `0`. -/
theorem falsy_status_defaults_to_draft_witness :
    truthy (JSValue.num 0) = false ∧
    (invalidStatusMsg ∉ (validatePostData
        { title := .str "t".toList, content := .str "c".toList,
          status := .num 0, tags := none }).errors ∧
     (mkPost "id-1".toList "now".toList
        { title := .str "t".toList, content := .str "c".toList,
          status := .num 0, tags := none }).status = JSValue.str "draft".toList ∧
     (∀ v : JSValue,
       (invalidStatusMsg ∈ (validatePostData
           { title := .str "t".toList, content := .str "c".toList,
             status := v, tags := none }).errors ↔
         (truthy v = true ∧ statusIncludes v = false)))) :=
  ⟨rfl, falsy_status_defaults_to_draft
    { title := .str "t".toList, content := .str "c".toList,
      status := .num 0, tags := none } "id-1".toList "now".toList rfl⟩

/-! ### Further helper lemmas (length boundaries, response-body keys) -/

theorem isWs_a : isWs 'a' = false := by decide

theorem dropWhile_isWs_replicate_a (n : Nat) :
    (List.replicate n 'a').dropWhile isWs = List.replicate n 'a' := by
  cases n with
  | zero => rfl
  | succ m => simp [List.replicate_succ, List.dropWhile_cons, isWs_a]

theorem trim_replicate_a (n : Nat) :
    trim (List.replicate n 'a') = List.replicate n 'a' := by
  unfold trim
  rw [dropWhile_isWs_replicate_a, List.reverse_replicate,
    dropWhile_isWs_replicate_a, List.reverse_replicate]

theorem trim_nil_of_eq_nil {t : List Char} (h : t = []) : trim t = [] := by
  rw [h]; rfl

theorem titleErrors_nil {t : List Char} (h0 : (trim t).length ≠ 0)
    (h1 : (trim t).length ≤ 200) : titleErrors (.str t) = [] := by
  have hne : t ≠ [] := fun h => h0 (by rw [trim_nil_of_eq_nil h]; rfl)
  unfold titleErrors
  rw [if_neg, if_neg]
  · simp only [strOf]
    omega
  · simp [truthy, isStr, strOf, hne, h0]

theorem titleErrors_tooLong {t : List Char} (h : (trim t).length = 201) :
    titleErrors (.str t) = [titleTooLongMsg] := by
  have hne : t ≠ [] := fun hh => by
    rw [trim_nil_of_eq_nil hh] at h
    simp at h
  unfold titleErrors
  rw [if_neg, if_pos]
  · simp only [strOf]
    omega
  · simp [truthy, isStr, strOf, hne, h]

theorem contentErrors_nil {t : List Char} (h0 : (trim t).length ≠ 0)
    (h1 : (trim t).length ≤ 10000) : contentErrors (.str t) = [] := by
  have hne : t ≠ [] := fun h => h0 (by rw [trim_nil_of_eq_nil h]; rfl)
  unfold contentErrors
  rw [if_neg, if_neg]
  · simp only [strOf]
    omega
  · simp [truthy, isStr, strOf, hne, h0]

theorem contentErrors_tooLong {t : List Char} (h : (trim t).length = 10001) :
    contentErrors (.str t) = [contentTooLongMsg] := by
  have hne : t ≠ [] := fun hh => by
    rw [trim_nil_of_eq_nil hh] at h
    simp at h
  unfold contentErrors
  rw [if_neg, if_pos]
  · simp only [strOf]
    omega
  · simp [truthy, isStr, strOf, hne, h]

theorem postJson_hasKey_tags (p : Post) :
    (postJson p).hasKey "tags".toList = false := by
  simp only [postJson, JVal.hasKey, List.any_cons, List.any_nil]
  decide

theorem createFailedBody_hasKey_message (dev : Bool) (msg : List Char) :
    (createFailedBody dev msg).hasKey messageKey = dev := by
  have hk : (errorKey == messageKey) = false := by decide
  have hm : (messageKey == messageKey) = true := by decide
  cases dev <;> simp [createFailedBody, JVal.hasKey, hk, hm]

theorem fetchFailedBody_hasKey_message (dev : Bool) (msg : List Char) :
    (fetchFailedBody dev msg).hasKey messageKey = dev := by
  have hk : (errorKey == messageKey) = false := by decide
  have hm : (messageKey == messageKey) = true := by decide
  cases dev <;> simp [fetchFailedBody, JVal.hasKey, hk, hm]

/-- C2: with the store reachable, the list handler returns status 200 with
body the JSON array of the index query result, in which every entry has
status `'published'`, entries are ordered by `createdAt` descending
(newest first), and there are at most 50 of them; when no published posts
exist the body is the empty array, still with status 200. -/
theorem list_posts_published_feed (env : Env) (st : Store)
    (hf : st.fault = none) :
    getPosts env st =
      { statusCode := 200
        body := .arr ((publishedQuery st.items).map postJson) } ∧
    (∀ p ∈ publishedQuery st.items, p.status = publishedStr) ∧
    (publishedQuery st.items).Pairwise (fun p q => q.createdAt ≤ p.createdAt) ∧
    (publishedQuery st.items).length ≤ 50 ∧
    (st.items.filter (fun p => p.status == publishedStr) = [] →
      getPosts env st = { statusCode := 200, body := .arr [] }) := by
  refine ⟨getPosts_ok env st hf, fun p hp => publishedQuery_status hp,
    publishedQuery_sorted _, publishedQuery_length _, fun h => ?_⟩
  rw [getPosts_ok env st hf, publishedQuery_nil h]
  rfl

/-- Witness for C2 at a concrete store holding one published and one draft
post. -/
theorem list_posts_published_feed_witness :
    demoStore.fault = none ∧
    (getPosts ⟨"test".toList⟩ demoStore =
      { statusCode := 200
        body := .arr ((publishedQuery demoStore.items).map postJson) } ∧
    (∀ p ∈ publishedQuery demoStore.items, p.status = publishedStr) ∧
    (publishedQuery demoStore.items).Pairwise
      (fun p q => q.createdAt ≤ p.createdAt) ∧
    (publishedQuery demoStore.items).length ≤ 50 ∧
    (demoStore.items.filter (fun p => p.status == publishedStr) = [] →
      getPosts ⟨"test".toList⟩ demoStore =
        { statusCode := 200, body := .arr [] })) :=
  ⟨rfl, list_posts_published_feed ⟨"test".toList⟩ demoStore rfl⟩

/-- C3 counterexample: a successful create whose candidate carries a `tags`
field yields a 201 response whose body has no `tags` key at all — the
handler's `post` object consists only of `postId`, `createdAt`, `title`,
`content`, `status` and `updatedAt`, so the response body cannot carry the
candidate's tags sequence. -/
theorem create_response_has_no_tags_cx :
    (createPost ⟨"test".toList⟩ "id-1".toList "2024-01-01T00:00:00.000Z".toList
        (.wellFormed taggedCandidate) { items := [], fault := none }).1.statusCode
      = 201 ∧
    JVal.hasKey
      (createPost ⟨"test".toList⟩ "id-1".toList "2024-01-01T00:00:00.000Z".toList
        (.wellFormed taggedCandidate) { items := [], fault := none }).1.body
      "tags".toList = false := by
  constructor
  · decide
  · decide

/-- C3 (amended): sanitization is applied only to `title` and `content`;
`status` passes through (defaulted to `'draft'` when falsy); a successful
create returns 201 with body the created Post consisting of exactly the
fields `postId`, `createdAt`, `title`, `content`, `status`, `updatedAt` —
the candidate's `tags` field is ignored and not echoed in the response. -/
theorem create_success_response_shape (env : Env) (pid now : List Char)
    (raw : RawBody) (st : Store) (b : Body) (hp : parseBody raw = some b)
    (hv : (validatePostData b).isValid = true) (hf : st.fault = none)
    (hc : hasPostId st.items pid = false) :
    (createPost env pid now raw st).1 =
      { statusCode := 201
        body := JVal.obj
          [("postId".toList, .str pid),
           ("createdAt".toList, .str now),
           ("title".toList, .str (sanitizeInput (strOf b.title))),
           ("content".toList, .str (sanitizeInput (strOf b.content))),
           ("status".toList,
             jsToJson (if truthy b.status then b.status
                       else .str "draft".toList)),
           ("updatedAt".toList, .str now)] } ∧
    (createPost env pid now raw st).1.body.hasKey "tags".toList = false := by
  rw [createPost_success_eq env pid now raw st b hp hv hf hc]
  exact ⟨rfl, postJson_hasKey_tags _⟩

/-- Witness for C3 (amended) at a concrete tagged candidate. -/
theorem create_success_response_shape_witness :
    parseBody (.wellFormed taggedCandidate) = some taggedCandidate ∧
    (validatePostData taggedCandidate).isValid = true ∧
    (Store.mk [] none).fault = none ∧
    hasPostId (Store.mk [] none).items "id-1".toList = false ∧
    ((createPost ⟨"test".toList⟩ "id-1".toList "now".toList
        (.wellFormed taggedCandidate) (Store.mk [] none)).1 =
      { statusCode := 201
        body := JVal.obj
          [("postId".toList, .str "id-1".toList),
           ("createdAt".toList, .str "now".toList),
           ("title".toList, .str (sanitizeInput (strOf taggedCandidate.title))),
           ("content".toList,
             .str (sanitizeInput (strOf taggedCandidate.content))),
           ("status".toList,
             jsToJson (if truthy taggedCandidate.status
                       then taggedCandidate.status
                       else .str "draft".toList)),
           ("updatedAt".toList, .str "now".toList)] } ∧
     (createPost ⟨"test".toList⟩ "id-1".toList "now".toList
        (.wellFormed taggedCandidate) (Store.mk [] none)).1.body.hasKey
       "tags".toList = false) :=
  ⟨rfl, by decide, rfl, rfl,
    create_success_response_shape ⟨"test".toList⟩ "id-1".toList "now".toList
      (.wellFormed taggedCandidate) (Store.mk [] none) taggedCandidate
      rfl (by decide) rfl rfl⟩

/-- C4: for every title of trimmed length exactly 200 and content of
trimmed length exactly 10,000, validation passes and (the store write
succeeding) the create handler answers 201; at trimmed lengths 201 and
10,001 the error list consists of exactly the two corresponding length
errors. -/
theorem length_boundaries (env : Env) (pid now : List Char) (st : Store)
    (t c t2 c2 : List Char)
    (ht : (trim t).length = 200) (hc : (trim c).length = 10000)
    (ht2 : (trim t2).length = 201) (hc2 : (trim c2).length = 10001)
    (hf : st.fault = none) (hid : hasPostId st.items pid = false) :
    (validatePostData
      { title := .str t, content := .str c,
        status := .undef, tags := none }).isValid = true ∧
    (createPost env pid now
      (.wellFormed { title := .str t, content := .str c,
                     status := .undef, tags := none }) st).1.statusCode = 201 ∧
    (validatePostData
      { title := .str t2, content := .str c2,
        status := .undef, tags := none }).errors
      = [titleTooLongMsg, contentTooLongMsg] := by
  have h1 : titleErrors (.str t) = [] := titleErrors_nil (by omega) (by omega)
  have h2 : contentErrors (.str c) = [] := contentErrors_nil (by omega) (by omega)
  have hv : (validatePostData
      { title := .str t, content := .str c,
        status := .undef, tags := none }).isValid = true := by
    simp [validatePostData, h1, h2, statusErrors, truthy]
  refine ⟨hv, ?_, ?_⟩
  · rw [createPost_success_eq env pid now
      (.wellFormed { title := .str t, content := .str c,
                     status := .undef, tags := none }) st
      { title := .str t, content := .str c,
        status := .undef, tags := none } rfl hv hf hid]
  · simp [validatePostData, titleErrors_tooLong ht2,
      contentErrors_tooLong hc2, statusErrors, truthy]

/-- Witness for C4 at titles/contents made of repeated `a` characters of
lengths 200/10000 and 201/10001. -/
theorem length_boundaries_witness :
    (trim (List.replicate 200 'a')).length = 200 ∧
    (trim (List.replicate 10000 'a')).length = 10000 ∧
    (trim (List.replicate 201 'a')).length = 201 ∧
    (trim (List.replicate 10001 'a')).length = 10001 ∧
    ((validatePostData
      { title := .str (List.replicate 200 'a'),
        content := .str (List.replicate 10000 'a'),
        status := .undef, tags := none }).isValid = true ∧
    (createPost ⟨"test".toList⟩ "id-1".toList "now".toList
      (.wellFormed { title := .str (List.replicate 200 'a'),
                     content := .str (List.replicate 10000 'a'),
                     status := .undef, tags := none })
      (Store.mk [] none)).1.statusCode = 201 ∧
    (validatePostData
      { title := .str (List.replicate 201 'a'),
        content := .str (List.replicate 10001 'a'),
        status := .undef, tags := none }).errors
      = [titleTooLongMsg, contentTooLongMsg]) :=
  ⟨by rw [trim_replicate_a, List.length_replicate],
   by rw [trim_replicate_a, List.length_replicate],
   by rw [trim_replicate_a, List.length_replicate],
   by rw [trim_replicate_a, List.length_replicate],
   length_boundaries ⟨"test".toList⟩ "id-1".toList "now".toList
     (Store.mk [] none) (List.replicate 200 'a') (List.replicate 10000 'a')
     (List.replicate 201 'a') (List.replicate 10001 'a')
     (by rw [trim_replicate_a, List.length_replicate])
     (by rw [trim_replicate_a, List.length_replicate])
     (by rw [trim_replicate_a, List.length_replicate])
     (by rw [trim_replicate_a, List.length_replicate]) rfl rfl⟩

/-- C6: the put issued by the create handler succeeds exactly when no
record with the generated `postId` exists; when the key already exists the
handler answers 409 and the store state — in particular the existing post —
is unchanged. -/
theorem conditional_write_conflict (env : Env) (pid now : List Char)
    (raw : RawBody) (st : Store) (b : Body) (hp : parseBody raw = some b)
    (hv : (validatePostData b).isValid = true) (hf : st.fault = none)
    (hc : hasPostId st.items pid = true) :
    createPost env pid now raw st =
      ({ statusCode := 409, body := conflictBody }, st) ∧
    (∀ p : Post,
      ((dynamoPut st p).1 = PutOutcome.ok ↔
        hasPostId st.items p.postId = false)) := by
  refine ⟨createPost_conflict_eq env pid now raw st b hp hv hf hc, fun p => ?_⟩
  unfold dynamoPut
  rw [hf]
  by_cases h : hasPostId st.items p.postId
  · simp [h]
  · simp [h]

/-- Witness for C6: a simulated collision — the store already holds a post
with id `p1` and the generator hands out `p1` again. -/
theorem conditional_write_conflict_witness :
    parseBody (.wellFormed taggedCandidate) = some taggedCandidate ∧
    (validatePostData taggedCandidate).isValid = true ∧
    demoStore.fault = none ∧
    hasPostId demoStore.items "p1".toList = true ∧
    (createPost ⟨"test".toList⟩ "p1".toList "now".toList
        (.wellFormed taggedCandidate) demoStore =
      ({ statusCode := 409, body := conflictBody }, demoStore) ∧
    (∀ p : Post,
      ((dynamoPut demoStore p).1 = PutOutcome.ok ↔
        hasPostId demoStore.items p.postId = false))) :=
  ⟨rfl, by decide, rfl, by decide,
    conditional_write_conflict ⟨"test".toList⟩ "p1".toList "now".toList
      (.wellFormed taggedCandidate) demoStore taggedCandidate
      rfl (by decide) rfl (by decide)⟩

/-- C8: when a store call fails (store unreachable), the create handler and
the list handler each answer 500 with the generic error tag, and the
underlying detail message appears in the body exactly when
`NODE_ENV === 'development'` — it is suppressed in every other mode. -/
theorem store_failure_500_detail_gated (env : Env) (pid now : List Char)
    (raw : RawBody) (st : Store) (b : Body) (msg : List Char)
    (hp : parseBody raw = some b)
    (hv : (validatePostData b).isValid = true) (hf : st.fault = some msg) :
    createPost env pid now raw st =
      ({ statusCode := 500, body := createFailedBody (devMode env) msg }, st) ∧
    getPosts env st =
      { statusCode := 500, body := fetchFailedBody (devMode env) msg } ∧
    (createFailedBody (devMode env) msg).hasKey messageKey = devMode env ∧
    (fetchFailedBody (devMode env) msg).hasKey messageKey = devMode env ∧
    devMode env = (env.nodeEnv == "development".toList) := by
  refine ⟨createPost_store_fault_eq env pid now raw st b msg hp hv hf,
    ?_, createFailedBody_hasKey_message _ _,
    fetchFailedBody_hasKey_message _ _, rfl⟩
  unfold getPosts
  rw [hf]

/-- Witness for C8 at a concrete unreachable store, exercised in
non-development mode. -/
theorem store_failure_500_detail_gated_witness :
    parseBody (.wellFormed taggedCandidate) = some taggedCandidate ∧
    (validatePostData taggedCandidate).isValid = true ∧
    faultyStore.fault = some "connection refused".toList ∧
    (createPost ⟨"production".toList⟩ "id-1".toList "now".toList
        (.wellFormed taggedCandidate) faultyStore =
      ({ statusCode := 500
         body := createFailedBody (devMode ⟨"production".toList⟩)
           "connection refused".toList }, faultyStore) ∧
    getPosts ⟨"production".toList⟩ faultyStore =
      { statusCode := 500
        body := fetchFailedBody (devMode ⟨"production".toList⟩)
          "connection refused".toList } ∧
    (createFailedBody (devMode ⟨"production".toList⟩)
        "connection refused".toList).hasKey messageKey
      = devMode ⟨"production".toList⟩ ∧
    (fetchFailedBody (devMode ⟨"production".toList⟩)
        "connection refused".toList).hasKey messageKey
      = devMode ⟨"production".toList⟩ ∧
    devMode ⟨"production".toList⟩
      = ("production".toList == "development".toList)) :=
  ⟨rfl, by decide, rfl,
    store_failure_500_detail_gated ⟨"production".toList⟩ "id-1".toList
      "now".toList (.wellFormed taggedCandidate) faultyStore taggedCandidate
      "connection refused".toList rfl (by decide) rfl⟩

end Blog
